import Mathlib

/-!
Shallow embedding of `src/tag_audit.py` (Azure Resource Tag Compliance
Auditor) and proofs about its core pipeline: per-resource tag evaluation
(`TagAuditor.audit_resource`), the audit runner (`TagAuditor.run_audit` with
`authenticate` / `get_resources` abstracted into an environment record),
summary aggregation (`TagAuditor.generate_summary`) and the CSV renderer
(`output_csv`).

Conventions of the embedding:
- Python dicts of tags become association lists `List (String × String)`;
  only key membership is ever queried by the audited code.
- A Python function that can raise an uncaught exception is embedded with
  an `Option` result (`none` = the exception propagates).
- Machine arithmetic: `compliance_percentage` is computed in Python as
  `int(((R - M) / R) * 100)` in IEEE double arithmetic; for every reachable
  value `M ∈ {0,1,2,3}` that float computation yields exactly the floor of
  the exact rational, so it is embedded as Nat floor division
  `((R - M) * 100) / R`. The summary's `compliance_rate`, by contrast, is
  genuinely float-sensitive: it is embedded through `toDouble`, the exact
  rational value of the IEEE binary64 round-to-nearest result, applied at
  each operation of `round(compliant/total*100, 2)`; at tie-straddling
  inputs this differs from exact 2-decimal rounding (`round2_spec`).
- Side-channel diagnostics (`print(..., file=sys.stderr)`) are embedded as
  an explicit list of log lines returned next to the value.
- `datetime.utcnow().isoformat()` is an input parameter `now` of the
  summary aggregator; the code appends the literal `"Z"`.
-/

namespace TagAudit

/-- `TagAuditor.REQUIRED_TAGS = ['environment', 'owner', 'project']`. -/
def REQUIRED_TAGS : List String := ["environment", "owner", "project"]

/-- A resource record as consumed by `TagAuditor.audit_resource`.
`tags` is `none` when the Azure object carries no tag mapping
(Python `resource.tags is None`). -/
structure AzureResource where
  name : String
  type : String
  id : String
  location : String
  tags : Option (List (String × String))
deriving DecidableEq

/-- Python `tag in resource_tags`: key membership in the tag mapping. -/
def containsKey (m : List (String × String)) (k : String) : Bool :=
  m.any (fun p => p.1 = k)

/-- The audit-result dictionary built by `TagAuditor.audit_resource`. -/
structure AuditResult where
  resource_name : String
  resource_type : String
  resource_group : String
  location : String
  tags : List (String × String)
  missing_tags : List String
  compliant : Bool
  compliance_percentage : Nat
deriving DecidableEq

/-- Python `sep in s` for a one-character separator: character membership. -/
def pyIn (c : Char) (s : String) : Bool := s.data.contains c

/-- Python `str.split(sep)` on the character list: every occurrence of
`sep` starts a new segment; the empty string yields `[""]`. -/
def splitChar (sep : Char) : List Char → List (List Char)
  | [] => [[]]
  | c :: cs =>
      if c = sep then [] :: splitChar sep cs
      else match splitChar sep cs with
        | [] => [[c]]
        | h :: t => (c :: h) :: t

/-- Python `s.split(sep)` for a one-character separator. -/
def pySplit (sep : Char) (s : String) : List String :=
  (splitChar sep s.data).map String.mk

/-- The `resource_group` entry of the result dictionary:
`resource.id.split('/')[4] if '/' in resource.id else 'unknown'`.
The subscript raises `IndexError` (embedded as `none`) when the id contains
a `/` but splits into fewer than five segments. -/
def resource_group_of (id : String) : Option String :=
  if pyIn '/' id then (pySplit '/' id)[4]? else some "unknown"

/-- `TagAuditor.audit_resource`: evaluates one resource against
`REQUIRED_TAGS`. `none` models the uncaught `IndexError` from the
`resource_group` computation. -/
def audit_resource (resource : AzureResource) : Option AuditResult :=
  let resource_tags := resource.tags.getD []
  let missing_tags := REQUIRED_TAGS.filter (fun tag => !(containsKey resource_tags tag))
  (resource_group_of resource.id).map (fun g =>
    { resource_name := resource.name
      resource_type := resource.type
      resource_group := g
      location := resource.location
      tags := resource_tags
      missing_tags := missing_tags
      compliant := missing_tags.length == 0
      compliance_percentage :=
        ((REQUIRED_TAGS.length - missing_tags.length) * 100) / REQUIRED_TAGS.length })

/-- Environment a `TagAuditor` run interacts with: the optional
resource-group scope and the outcomes of the two Azure calls
(`authenticate`'s credential test and `resources.list*`).
`Except.error e` carries the exception text `e`. -/
structure AzureEnv where
  resource_group : Option String
  auth : Except String Unit
  listed : Except String (List AzureResource)

/-- `TagAuditor.authenticate`: true on success; any `AzureError` or other
exception is caught and reported as `false` plus a stderr line. -/
def authenticate (env : AzureEnv) : Bool × List String :=
  match env.auth with
  | .ok _ => (true, ["Authentication successful."])
  | .error e => (false, ["Authentication failed: " ++ e])

/-- `TagAuditor.get_resources`: lists resources (scoped when
`resource_group` is set); an `AzureError` is caught and converted to the
empty list plus a stderr line. -/
def get_resources (env : AzureEnv) : List AzureResource × List String :=
  let scanMsg := match env.resource_group with
    | some rg => "Scanning resources in resource group: " ++ rg
    | none => "Scanning all resources in subscription"
  match env.listed with
  | .ok resources =>
      (resources, [scanMsg, "Found " ++ toString resources.length ++ " resources to audit."])
  | .error e => ([], [scanMsg, "Error retrieving resources: " ++ e])

/-- `TagAuditor.run_audit`: authenticate, list, then audit each resource in
order. The value is `none` only when `audit_resource` raises; the second
component is the accumulated stderr diagnostics. -/
def run_audit (env : AzureEnv) : Option (List AuditResult) × List String :=
  let (ok, authLogs) := authenticate env
  if !ok then (some [], authLogs ++ ["Cannot proceed without authentication."])
  else
    let (resources, getLogs) := get_resources env
    if resources.isEmpty then
      (some [], authLogs ++ getLogs ++ ["No resources found to audit."])
    else
      (resources.mapM audit_resource, authLogs ++ getLogs)

/-- The summary dictionary built by `TagAuditor.generate_summary`. -/
structure Summary where
  audit_timestamp : String
  total_resources : Nat
  compliant_resources : Nat
  non_compliant_resources : Nat
  compliance_rate : Rat
  required_tags : List String
deriving DecidableEq

/-- Rounding of a rational to the nearest integer, ties to even. Shared by
the binary64 significand rounding below and by the decimal step of
CPython's `round(float, 2)`. -/
def roundHalfEven (q : Rat) : Int :=
  if q - Rat.floor q < 1/2 then Rat.floor q
  else if (1 : Rat)/2 < q - Rat.floor q then Rat.floor q + 1
  else if Rat.floor q % 2 = 0 then Rat.floor q else Rat.floor q + 1

/-- The exact rational value of rounding `q` to IEEE-754 binary64
(round to nearest, ties to even): the 53-bit significand `q * 2 ^ (52 - e)`
with `e = ⌊log2 |q|⌋` is rounded to the nearest integer, ties to even.
This realises binary64 throughout the normal range, which contains every
value the audited rate computation can produce at any remotely realistic
resource count; the subnormal (below `2 ^ (-1022)`) and overflow regimes
are not special-cased. -/
def toDouble (q : Rat) : Rat :=
  if q = 0 then 0
  else
    let s : Int := 52 - Int.log 2 |q|
    (roundHalfEven (q * 2 ^ s) : Rat) / 2 ^ s

/-- Python true division `a / b` of two ints: a correctly rounded double. -/
def pyDivFloat (a b : Rat) : Rat := toDouble (a / b)

/-- Python float multiplication: a correctly rounded double. -/
def pyMulFloat (x y : Rat) : Rat := toDouble (x * y)

/-- CPython `round(x, 2)` on a float `x`: the exact binary value of `x` is
rounded to two decimal places, ties to even, and the resulting decimal is
converted back to the nearest double. -/
def pyRound2 (x : Rat) : Rat := toDouble ((roundHalfEven (x * 100) : Rat) / 100)

/-- The spec's words, for comparison with the code's float computation:
`standard 2-decimal rounding` of the exact rational, ties to even
(half-up would agree at every value this development evaluates it on). -/
def round2_spec (q : Rat) : Rat := (roundHalfEven (q * 100) : Rat) / 100

/-- `TagAuditor.generate_summary`. `now` stands for
`datetime.utcnow().isoformat()`; the compliant count is the Python
generator sum `sum(1 for r in audit_results if r['compliant'])`; the rate
is `round(compliant_resources / total_resources * 100, 2)` computed in
binary64 as in the source. -/
def generate_summary (now : String) (audit_results : List AuditResult) : Summary :=
  let total_resources := audit_results.length
  let compliant_resources :=
    (audit_results.map (fun r => if r.compliant then 1 else 0)).sum
  let non_compliant_resources := total_resources - compliant_resources
  { audit_timestamp := now ++ "Z"
    total_resources := total_resources
    compliant_resources := compliant_resources
    non_compliant_resources := non_compliant_resources
    compliance_rate :=
      if total_resources > 0 then
        pyRound2 (pyMulFloat
          (pyDivFloat (compliant_resources : Rat) (total_resources : Rat)) 100)
      else 0
    required_tags := REQUIRED_TAGS }

/-- CSV field quoting as performed by `csv.writer` under the default
`QUOTE_MINIMAL` dialect: quote the field when it contains a delimiter,
quote char or newline, doubling embedded quote chars. -/
def csvQuote (s : String) : String :=
  if pyIn ',' s || pyIn '"' s || pyIn '\n' s || pyIn '\r' s then
    "\"" ++ String.mk (s.data.foldr (fun c acc =>
      (if c = '"' then ['"', '"'] else [c]) ++ acc) []) ++ "\""
  else s

/-- Python `str` of a bool, used by `csv.DictWriter` for `compliant`. -/
def pyBool (b : Bool) : String := if b then "True" else "False"

/-- The `fieldnames` list of `output_csv`. -/
def fieldnames : List String :=
  ["resource_name", "resource_type", "resource_group", "location",
   "compliant", "compliance_percentage", "missing_tags"]

/-- The header row written by `writer.writeheader()`. -/
def csvHeaderRow : String := String.intercalate "," (fieldnames.map csvQuote)

/-- The data row `writer.writerow(csv_row)` emits for one result:
`missing_tags` is `', '.join(...)` when non-empty, else the literal
`none`. -/
def csvDataRow (r : AuditResult) : String :=
  String.intercalate ","
    (([r.resource_name, r.resource_type, r.resource_group, r.location,
       pyBool r.compliant, toString r.compliance_percentage,
       if r.missing_tags.isEmpty then "none"
       else String.intercalate ", " r.missing_tags]).map csvQuote)

/-- `output_csv` as the list of lines it prints: five `#` comment lines,
a blank line, then (only when `audit_results` is non-empty, Python
`if audit_results:`) the header row and one data row per result.
The rate comment renders the number through `toString` on `Rat`, standing
in for Python float formatting; no claim depends on that text. -/
def output_csv (audit_results : List AuditResult) (summary : Summary) : List String :=
  ["# Audit Timestamp: " ++ summary.audit_timestamp,
   "# Total Resources: " ++ toString summary.total_resources,
   "# Compliant: " ++ toString summary.compliant_resources,
   "# Non-Compliant: " ++ toString summary.non_compliant_resources,
   "# Compliance Rate: " ++ toString summary.compliance_rate ++ "%",
   ""]
  ++ (if audit_results.isEmpty then []
      else csvHeaderRow :: audit_results.map csvDataRow)

end TagAudit

namespace TagAudit

/-- Sample resource of the spec scenario: only `environment` is set. -/
def vm1 : AzureResource :=
  { name := "vm1", type := "Microsoft.Compute/virtualMachines",
    id := "/subscriptions/abc/resourceGroups/rg1/providers/Microsoft.Compute/virtualMachines/vm1",
    location := "eastus", tags := some [("environment", "prod")] }

/-- The audit result the evaluator produces for `vm1`. -/
def vm1_result : AuditResult :=
  { resource_name := "vm1", resource_type := "Microsoft.Compute/virtualMachines",
    resource_group := "rg1", location := "eastus",
    tags := [("environment", "prod")], missing_tags := ["owner", "project"],
    compliant := false, compliance_percentage := 33 }

/-- Sample resource missing exactly one required tag (`project`). -/
def vm2 : AzureResource :=
  { name := "vm2", type := "Microsoft.Compute/virtualMachines",
    id := "/subscriptions/abc/resourceGroups/rg1/providers/Microsoft.Compute/virtualMachines/vm2",
    location := "eastus", tags := some [("environment", "prod"), ("owner", "ops")] }

/-- The audit result the evaluator produces for `vm2`. -/
def vm2_result : AuditResult :=
  { resource_name := "vm2", resource_type := "Microsoft.Compute/virtualMachines",
    resource_group := "rg1", location := "eastus",
    tags := [("environment", "prod"), ("owner", "ops")], missing_tags := ["project"],
    compliant := false, compliance_percentage := 66 }

/-- Sample resource carrying all three required tags. -/
def vm3 : AzureResource :=
  { name := "vm3", type := "Microsoft.Storage/storageAccounts",
    id := "/subscriptions/abc/resourceGroups/rg2/providers/Microsoft.Storage/storageAccounts/vm3",
    location := "westus",
    tags := some [("environment", "lab"), ("owner", "ops"), ("project", "p1")] }

/-- The audit result the evaluator produces for `vm3`. -/
def vm3_result : AuditResult :=
  { resource_name := "vm3", resource_type := "Microsoft.Storage/storageAccounts",
    resource_group := "rg2", location := "westus",
    tags := [("environment", "lab"), ("owner", "ops"), ("project", "p1")],
    missing_tags := [], compliant := true, compliance_percentage := 100 }

/-- Sample resource without any `/` in its id and with no tag mapping. -/
def novm : AzureResource :=
  { name := "x", type := "t", id := "noslash", location := "eastus", tags := none }

/-- The audit result the evaluator produces for `novm`. -/
def novm_result : AuditResult :=
  { resource_name := "x", resource_type := "t", resource_group := "unknown",
    location := "eastus", tags := [],
    missing_tags := ["environment", "owner", "project"],
    compliant := false, compliance_percentage := 0 }

/-- Environment whose credential negotiation fails. -/
def badEnv : AzureEnv :=
  { resource_group := none, auth := Except.error "credential error",
    listed := Except.ok [] }

/-- A result list with 23 compliant resources out of 160: the exact
compliance rate is 14.375, a 2-decimal rounding tie. -/
def list160 : List AuditResult :=
  List.replicate 23 vm3_result ++ List.replicate 137 vm1_result

lemma audit_resource_spec (res : AzureResource) (r : AuditResult)
    (h : audit_resource res = some r) :
    r.tags = res.tags.getD [] ∧
    r.missing_tags =
      REQUIRED_TAGS.filter (fun tag => !(containsKey (res.tags.getD []) tag)) ∧
    r.compliant = (r.missing_tags.length == 0) ∧
    r.compliance_percentage = ((3 - r.missing_tags.length) * 100) / 3 ∧
    resource_group_of res.id = some r.resource_group := by
  simp only [audit_resource] at h
  rw [Option.map_eq_some'] at h
  obtain ⟨g, hg, hr⟩ := h
  subst hr
  exact ⟨rfl, rfl, rfl, rfl, hg⟩

lemma missing_tags_length_le (res : AzureResource) (r : AuditResult)
    (h : audit_resource res = some r) : r.missing_tags.length ≤ 3 := by
  obtain ⟨-, hm, -, -, -⟩ := audit_resource_spec res r h
  rw [hm]
  exact List.length_filter_le _ _

lemma sum_ite_compliant (l : List AuditResult) :
    (l.map (fun r => if r.compliant then 1 else 0)).sum =
      (l.filter (fun r => r.compliant)).length := by
  induction l with
  | nil => rfl
  | cons a t ih =>
      by_cases ha : a.compliant <;>
        simp [ha, ih, Nat.add_comm, List.filter_cons]

lemma length_filter_not_add (l : List String) (p : String → Bool) :
    (l.filter (fun a => !(p a))).length + (l.filter p).length = l.length := by
  induction l with
  | nil => rfl
  | cons a t ih =>
      by_cases ha : p a <;> simp [List.filter_cons, ha] <;> omega

/-- C1: for every resource record the evaluator completes on, its
`compliance_percentage` is `floor(((R - M) / R) * 100)` with `R` the number
of required tags (3) and `M` the number of missing required tags, and the
value is an integer in `[0, 100]`. -/
theorem compliance_percentage_is_floor (res : AzureResource) (r : AuditResult)
    (h : audit_resource res = some r) :
    (r.compliance_percentage : Int) =
      ⌊(((REQUIRED_TAGS.length : Rat) - (r.missing_tags.length : Rat)) /
          (REQUIRED_TAGS.length : Rat)) * 100⌋ ∧
    r.compliance_percentage ≤ 100 := by
  obtain ⟨-, -, -, hp, -⟩ := audit_resource_spec res r h
  have hle := missing_tags_length_le res r h
  rw [hp]
  set M := r.missing_tags.length with hM
  interval_cases M <;>
    refine ⟨?_, by norm_num⟩ <;>
    · rw [eq_comm, Int.floor_eq_iff]
      norm_num [REQUIRED_TAGS]

theorem compliance_percentage_is_floor_witness :
    audit_resource vm1 = some vm1_result ∧
    ((vm1_result.compliance_percentage : Int) =
      ⌊(((REQUIRED_TAGS.length : Rat) - (vm1_result.missing_tags.length : Rat)) /
          (REQUIRED_TAGS.length : Rat)) * 100⌋ ∧
      vm1_result.compliance_percentage ≤ 100) :=
  ⟨by decide, compliance_percentage_is_floor vm1 vm1_result (by decide)⟩

/-- C2 counterexample: `vm2` is missing exactly one of the three required
tags, yet the evaluator produces `compliance_percentage = 66`, not 67. -/
theorem one_missing_not_67 :
    audit_resource vm2 = some vm2_result ∧
    vm2_result.missing_tags.length = 1 ∧
    vm2_result.compliance_percentage ≠ 67 := by decide

/-- C2 amended: a resource record missing exactly one of the three required
tags gets `compliance_percentage = 66` (the integer truncation of 66.67). -/
theorem one_missing_gives_66 (res : AzureResource) (r : AuditResult)
    (h : audit_resource res = some r) (h1 : r.missing_tags.length = 1) :
    r.compliance_percentage = 66 := by
  obtain ⟨-, -, -, hp, -⟩ := audit_resource_spec res r h
  rw [hp, h1]

theorem one_missing_gives_66_witness :
    audit_resource vm2 = some vm2_result ∧ vm2_result.missing_tags.length = 1 ∧
    vm2_result.compliance_percentage = 66 :=
  ⟨by decide, by decide, one_missing_gives_66 vm2 vm2_result (by decide) (by decide)⟩

/-- C3 counterexample: on a resource whose id contains a `/` but fewer than
five `/`-delimited segments, the evaluator raises an uncaught `IndexError`
(embedded as `none`): evaluation does abort instead of defaulting
`resource_group` to `"unknown"`. -/
theorem short_id_aborts :
    audit_resource
      { name := "vm1", type := "t", id := "a/b", location := "l", tags := some [] } =
      none := by decide

/-- C3 amended: the evaluator aborts exactly on the ids that contain a `/`
but split into fewer than five segments; for an id with no `/` at all it
continues with `resource_group = "unknown"`, and for an id with at least
five segments it continues with the 5th (0-indexed position 4) segment. -/
theorem resource_group_behaviour (res : AzureResource) :
    (audit_resource res = none ↔
      pyIn '/' res.id = true ∧ (pySplit '/' res.id).length < 5) ∧
    (∀ r, audit_resource res = some r →
      (pyIn '/' res.id = false → r.resource_group = "unknown") ∧
      (pyIn '/' res.id = true →
        (pySplit '/' res.id)[4]? = some r.resource_group)) := by
  constructor
  · simp only [audit_resource, Option.map_eq_none']
    unfold resource_group_of
    by_cases hc : pyIn '/' res.id
    · simp [hc, List.getElem?_eq_none_iff]
      omega
    · simp [hc]
  · intro r h
    obtain ⟨-, -, -, -, hg⟩ := audit_resource_spec res r h
    unfold resource_group_of at hg
    by_cases hc : pyIn '/' res.id
    · refine ⟨fun hcontra => by simp [hcontra] at hc, fun _ => ?_⟩
      simpa [hc] using hg
    · refine ⟨fun _ => ?_, fun hcontra => by simp [hcontra] at hc⟩
      simp [hc] at hg
      exact hg.symm

theorem resource_group_behaviour_witness :
    audit_resource novm = some novm_result ∧ novm_result.resource_group = "unknown" :=
  ⟨by decide,
    ((resource_group_behaviour novm).2 novm_result (by decide)).1 (by decide)⟩

/-- C4: `compliant` holds iff `compliance_percentage = 100`, and the
missing and present required tags partition the three required tags. -/
theorem compliant_iff_full_percentage (res : AzureResource) (r : AuditResult)
    (h : audit_resource res = some r) :
    (r.compliant = true ↔ r.compliance_percentage = 100) ∧
    r.missing_tags.length +
      (REQUIRED_TAGS.filter (fun tag => containsKey r.tags tag)).length =
      REQUIRED_TAGS.length := by
  obtain ⟨ht, hm, hcompl, hp, -⟩ := audit_resource_spec res r h
  have hle := missing_tags_length_le res r h
  constructor
  · rw [hcompl, hp]
    set M := r.missing_tags.length with hM
    interval_cases M <;> simp
  · rw [ht, hm]
    exact length_filter_not_add REQUIRED_TAGS
      (fun tag => containsKey (res.tags.getD []) tag)

theorem compliant_iff_full_percentage_witness :
    audit_resource vm3 = some vm3_result ∧
    ((vm3_result.compliant = true ↔ vm3_result.compliance_percentage = 100) ∧
      vm3_result.missing_tags.length +
        (REQUIRED_TAGS.filter (fun tag => containsKey vm3_result.tags tag)).length =
        REQUIRED_TAGS.length) :=
  ⟨by decide, compliant_iff_full_percentage vm3 vm3_result (by decide)⟩

/-- C5: `missing_tags` is the ordered subsequence of the required tags whose
keys are absent from the resource's tag mapping; `none` tags behave as the
empty mapping. -/
theorem missing_tags_exact (res : AzureResource) (r : AuditResult)
    (h : audit_resource res = some r) :
    List.Sublist r.missing_tags REQUIRED_TAGS ∧
    (∀ tag, tag ∈ r.missing_tags ↔
      tag ∈ REQUIRED_TAGS ∧ containsKey (res.tags.getD []) tag = false) ∧
    (res.tags = none → r.missing_tags = REQUIRED_TAGS) := by
  obtain ⟨-, hm, -, -, -⟩ := audit_resource_spec res r h
  rw [hm]
  refine ⟨List.filter_sublist _, fun tag => ?_, fun hnone => ?_⟩
  · simp [List.mem_filter]
  · rw [hnone]
    decide

theorem missing_tags_exact_witness :
    audit_resource novm = some novm_result ∧ novm_result.missing_tags = REQUIRED_TAGS :=
  ⟨by decide, (missing_tags_exact novm novm_result (by decide)).2.2 rfl⟩

lemma ratFloor_intFloor (q : Rat) : Rat.floor q = ⌊q⌋ := rfl

lemma int_log_eq {q : Rat} {e : Int} (hq : 0 < q)
    (h1 : (2 : Rat) ^ e ≤ q) (h2 : q < (2 : Rat) ^ (e + 1)) :
    Int.log 2 q = e := by
  have h1' : ((2 : Nat) : Rat) ^ e ≤ q := by exact_mod_cast h1
  have h2' : q < ((2 : Nat) : Rat) ^ (e + 1) := by exact_mod_cast h2
  have h3 : e ≤ Int.log 2 q := (Int.zpow_le_iff_le_log one_lt_two hq).mp h1'
  have h4 : Int.log 2 q < e + 1 := (Int.lt_zpow_iff_log_lt one_lt_two hq).mp h2'
  omega

lemma roundHalfEven_eq_of_lt {q : Rat} {z : Int}
    (hfl : ⌊q⌋ = z) (hfr : q - (z : Rat) < 1/2) : roundHalfEven q = z := by
  unfold roundHalfEven
  rw [ratFloor_intFloor, hfl, if_pos hfr]

lemma roundHalfEven_eq_of_half_odd {q : Rat} {z : Int}
    (hfl : ⌊q⌋ = z) (hfr : q - (z : Rat) = 1/2) (hodd : z % 2 = 1) :
    roundHalfEven q = z + 1 := by
  unfold roundHalfEven
  rw [ratFloor_intFloor, hfl, if_neg (by rw [hfr]; exact lt_irrefl _),
    if_neg (by rw [hfr]; exact lt_irrefl _), if_neg (by omega)]

lemma toDouble_eq {q : Rat} {e m : Int} (hq : 0 < q)
    (h1 : (2 : Rat) ^ e ≤ q) (h2 : q < (2 : Rat) ^ (e + 1))
    (hm : roundHalfEven (q * 2 ^ ((52 : Int) - e)) = m) :
    toDouble q = (m : Rat) / 2 ^ ((52 : Int) - e) := by
  simp only [toDouble]
  rw [if_neg hq.ne', abs_of_pos hq, int_log_eq hq h1 h2, hm]

lemma toDouble_div_23_160 :
    toDouble ((23 : Rat) / 160) = 5179139571476070 / 36028797018963968 := by
  have h1 : (2 : Rat) ^ (-3 : Int) ≤ (23 : Rat) / 160 := by norm_num
  have h2 : (23 : Rat) / 160 < (2 : Rat) ^ ((-3 : Int) + 1) := by norm_num
  have hfl : ⌊((23 : Rat) / 160) * 2 ^ ((52 : Int) - (-3))⌋ = 5179139571476070 := by
    rw [Int.floor_eq_iff]
    norm_num
  have hm : roundHalfEven (((23 : Rat) / 160) * 2 ^ ((52 : Int) - (-3))) =
      5179139571476070 :=
    roundHalfEven_eq_of_lt hfl (by norm_num)
  rw [toDouble_eq (by norm_num) h1 h2 hm]
  norm_num

lemma toDouble_times_100 :
    toDouble ((5179139571476070 / 36028797018963968 : Rat) * 100) =
      8092405580431359 / 562949953421312 := by
  have h1 : (2 : Rat) ^ (3 : Int) ≤ (5179139571476070 / 36028797018963968 : Rat) * 100 := by
    norm_num
  have h2 : (5179139571476070 / 36028797018963968 : Rat) * 100 <
      (2 : Rat) ^ ((3 : Int) + 1) := by
    norm_num
  have hfl : ⌊((5179139571476070 / 36028797018963968 : Rat) * 100) *
      2 ^ ((52 : Int) - 3)⌋ = 8092405580431359 := by
    rw [Int.floor_eq_iff]
    norm_num
  have hm : roundHalfEven (((5179139571476070 / 36028797018963968 : Rat) * 100) *
      2 ^ ((52 : Int) - 3)) = 8092405580431359 :=
    roundHalfEven_eq_of_lt hfl (by norm_num)
  rw [toDouble_eq (by norm_num) h1 h2 hm]
  norm_num

lemma roundHalfEven_near_tie :
    roundHalfEven ((8092405580431359 / 562949953421312 : Rat) * 100) = 1437 := by
  have hfl : ⌊(8092405580431359 / 562949953421312 : Rat) * 100⌋ = 1437 := by
    rw [Int.floor_eq_iff]
    norm_num
  exact roundHalfEven_eq_of_lt hfl (by norm_num)

lemma toDouble_1437_100 :
    toDouble ((1437 : Rat) / 100) = 8089590830664253 / 562949953421312 := by
  have h1 : (2 : Rat) ^ (3 : Int) ≤ (1437 : Rat) / 100 := by norm_num
  have h2 : (1437 : Rat) / 100 < (2 : Rat) ^ ((3 : Int) + 1) := by norm_num
  have hfl : ⌊((1437 : Rat) / 100) * 2 ^ ((52 : Int) - 3)⌋ = 8089590830664253 := by
    rw [Int.floor_eq_iff]
    norm_num
  have hm : roundHalfEven (((1437 : Rat) / 100) * 2 ^ ((52 : Int) - 3)) =
      8089590830664253 :=
    roundHalfEven_eq_of_lt hfl (by norm_num)
  rw [toDouble_eq (by norm_num) h1 h2 hm]
  norm_num

set_option maxRecDepth 4000 in
/-- C6 counterexample: 23 compliant resources out of 160 make the program
compute the binary64 chain `round(23/160*100, 2)`, whose result is the
double of value 8089590830664253/2^49 (printed `14.37`), while standard
2-decimal rounding of the exact rate 14.375 — what the claim's
`round(C/N*100, 2)` states — gives 14.38. -/
theorem rate_differs_from_exact_rounding :
    (generate_summary "T" list160).total_resources = 160 ∧
    (generate_summary "T" list160).compliant_resources = 23 ∧
    round2_spec ((23 : Rat) / 160 * 100) = 1438 / 100 ∧
    (generate_summary "T" list160).compliance_rate =
      8089590830664253 / 562949953421312 ∧
    (generate_summary "T" list160).compliance_rate ≠
      round2_spec ((23 : Rat) / 160 * 100) := by
  have hlen : list160.length = 160 := by simp [list160]
  have hsum : (list160.map (fun r => if r.compliant then 1 else 0)).sum = 23 := by
    simp only [list160, List.map_append, List.map_replicate, List.sum_append,
      List.sum_replicate, vm1_result, vm3_result]
    norm_num
  have hspec : round2_spec ((23 : Rat) / 160 * 100) = 1438 / 100 := by
    have hfl : ⌊((23 : Rat) / 160 * 100) * 100⌋ = 1437 := by
      rw [Int.floor_eq_iff]
      norm_num
    have hfr : ((23 : Rat) / 160 * 100) * 100 - ((1437 : Int) : Rat) = 1/2 := by norm_num
    unfold round2_spec
    rw [roundHalfEven_eq_of_half_odd hfl hfr (by decide)]
    norm_num
  have hrate : (generate_summary "T" list160).compliance_rate =
      8089590830664253 / 562949953421312 := by
    have hproj : (generate_summary "T" list160).compliance_rate =
        (if list160.length > 0 then
          pyRound2 (pyMulFloat
            (pyDivFloat
              (((list160.map (fun r => if r.compliant then 1 else 0)).sum : Nat) : Rat)
              ((list160.length : Nat) : Rat)) 100)
        else 0) := rfl
    rw [hproj, hlen, hsum, if_pos (by norm_num)]
    rw [show (((23 : Nat) : Rat)) = 23 from by norm_num]
    rw [show (((160 : Nat) : Rat)) = 160 from by norm_num]
    simp only [pyDivFloat, pyMulFloat, pyRound2]
    rw [toDouble_div_23_160, toDouble_times_100, roundHalfEven_near_tie]
    rw [show (((1437 : Int) : Rat)) = 1437 from by norm_num]
    exact toDouble_1437_100
  refine ⟨?_, ?_, hspec, hrate, ?_⟩
  · simpa [generate_summary] using hlen
  · have hproj : (generate_summary "T" list160).compliant_resources =
        (list160.map (fun r => if r.compliant then 1 else 0)).sum := rfl
    rw [hproj, hsum]
  · rw [hrate, hspec]
    norm_num

/-- C6 amended: the summary over N results of which C are compliant records
the counts N, C, N - C, the rate 0 (not an error) for N = 0, and for N > 0
the rate `round(C/N*100, 2)` computed in binary64 float arithmetic as the
program does — which agrees with standard 2-decimal rounding except at
tie-straddling inputs such as C = 23, N = 160, where the program returns
the neighbouring value (14.37 rather than 14.38). -/
theorem summary_counts (now : String) (results : List AuditResult) (N C : Nat)
    (hN : results.length = N)
    (hC : (results.filter (fun r => r.compliant)).length = C) :
    (generate_summary now results).total_resources = N ∧
    (generate_summary now results).compliant_resources = C ∧
    (generate_summary now results).non_compliant_resources = N - C ∧
    (generate_summary now results).compliance_rate =
      (if 0 < N then
        pyRound2 (pyMulFloat (pyDivFloat (C : Rat) (N : Rat)) 100)
      else 0) := by
  subst hN
  subst hC
  refine ⟨rfl, ?_, ?_, ?_⟩
  · simpa [generate_summary] using sum_ite_compliant results
  · simp [generate_summary, sum_ite_compliant]
  · simp [generate_summary, sum_ite_compliant]

theorem summary_counts_witness :
    (generate_summary "2024-01-01T00:00:00" [vm1_result]).total_resources = 1 ∧
    (generate_summary "2024-01-01T00:00:00" [vm1_result]).compliant_resources = 0 ∧
    (generate_summary "2024-01-01T00:00:00" [vm1_result]).non_compliant_resources = 1 - 0 ∧
    (generate_summary "2024-01-01T00:00:00" [vm1_result]).compliance_rate =
      (if 0 < 1 then
        pyRound2 (pyMulFloat (pyDivFloat ((0 : Nat) : Rat) ((1 : Nat) : Rat)) 100)
      else 0) :=
  summary_counts "2024-01-01T00:00:00" [vm1_result] 1 0 rfl rfl

/-- C7: the summary is invariant under permutation of the result list,
timestamp parameter held fixed. -/
theorem summary_perm_invariant (now : String) (l1 l2 : List AuditResult)
    (h : List.Perm l1 l2) :
    generate_summary now l1 = generate_summary now l2 := by
  have hlen := h.length_eq
  have hsum := (h.map (fun r => if r.compliant then 1 else 0)).sum_eq
  simp [generate_summary, hlen, hsum]

theorem summary_perm_invariant_witness :
    generate_summary "T" [vm1_result, novm_result] =
      generate_summary "T" [novm_result, vm1_result] :=
  summary_perm_invariant "T" _ _ (List.Perm.swap novm_result vm1_result [])

/-- C8 counterexample: for an empty result list the CSV output consists of
the five comment lines and the blank line only; the header row is absent,
against the claimed unconditional header-then-rows layout. -/
theorem csv_empty_has_no_header :
    csvHeaderRow ∉ output_csv [] (generate_summary "2024-01-01T00:00:00" []) := by
  decide

/-- C8 amended: the CSV renderer emits the five `#`-prefixed summary
comment lines (timestamp, total, compliant, non-compliant, rate), a blank
line, and then — only when the result list is non-empty — the header row
followed by one data row per result in input order; for an empty result
list nothing follows the blank line. -/
theorem output_csv_structure (results : List AuditResult) (s : Summary) :
    (output_csv results s).length =
      6 + (if results.isEmpty then 0 else 1 + results.length) ∧
    ((output_csv results s)[0]? = some ("# Audit Timestamp: " ++ s.audit_timestamp) ∧
     (output_csv results s)[1]? = some ("# Total Resources: " ++ toString s.total_resources) ∧
     (output_csv results s)[2]? = some ("# Compliant: " ++ toString s.compliant_resources) ∧
     (output_csv results s)[3]? =
       some ("# Non-Compliant: " ++ toString s.non_compliant_resources) ∧
     (output_csv results s)[4]? =
       some ("# Compliance Rate: " ++ toString s.compliance_rate ++ "%") ∧
     (output_csv results s)[5]? = some "") ∧
    (results.isEmpty = false →
      (output_csv results s)[6]? = some csvHeaderRow ∧
      ∀ i, (output_csv results s)[i + 7]? = (results[i]?).map csvDataRow) := by
  cases results with
  | nil =>
      refine ⟨by simp [output_csv], ⟨rfl, rfl, rfl, rfl, rfl, rfl⟩, by simp⟩
  | cons a t =>
      refine ⟨?_, ⟨rfl, rfl, rfl, rfl, rfl, rfl⟩, fun _ => ⟨rfl, fun i => ?_⟩⟩
      · simp [output_csv]
        omega
      · unfold output_csv
        rw [List.getElem?_append_right (by simp)]
        have h76 : ∀ (xs : List String), xs.length = 6 → i + 7 - xs.length = i + 1 := by
          intro xs hxs
          omega
        rw [h76 _ (by simp)]
        cases i with
        | zero => simp
        | succ n => simp

theorem output_csv_structure_witness :
    (output_csv [vm1_result] (generate_summary "2024-01-01T00:00:00" [vm1_result])).length =
      6 + (if ([vm1_result] : List AuditResult).isEmpty then 0
           else 1 + ([vm1_result] : List AuditResult).length) ∧
    (output_csv [vm1_result] (generate_summary "2024-01-01T00:00:00" [vm1_result]))[6]? =
      some csvHeaderRow ∧
    (output_csv [vm1_result] (generate_summary "2024-01-01T00:00:00" [vm1_result]))[0 + 7]? =
      (([vm1_result] : List AuditResult)[0]?).map csvDataRow :=
  ⟨(output_csv_structure [vm1_result] (generate_summary "2024-01-01T00:00:00" [vm1_result])).1,
   ((output_csv_structure [vm1_result]
      (generate_summary "2024-01-01T00:00:00" [vm1_result])).2.2 rfl).1,
   ((output_csv_structure [vm1_result]
      (generate_summary "2024-01-01T00:00:00" [vm1_result])).2.2 rfl).2 0⟩

/-- C9: when authentication fails or the listing call signals a retrieval
failure, the runner returns the empty result list plus at least one stderr
diagnostic; no exception escapes it into summarisation or rendering. -/
theorem run_audit_failure_empty (env : AzureEnv)
    (h : (∃ e, env.auth = Except.error e) ∨ (∃ e, env.listed = Except.error e)) :
    (run_audit env).1 = some [] ∧ (run_audit env).2 ≠ [] := by
  rcases h with ⟨e, he⟩ | ⟨e, he⟩
  · simp [run_audit, authenticate, he]
  · cases ha : env.auth with
    | error e2 => simp [run_audit, authenticate, ha]
    | ok u =>
        cases hrg : env.resource_group <;>
          simp [run_audit, authenticate, get_resources, ha, he, hrg]

theorem run_audit_failure_empty_witness :
    (run_audit badEnv).1 = some [] ∧ (run_audit badEnv).2 ≠ [] :=
  run_audit_failure_empty badEnv (Or.inl ⟨"credential error", rfl⟩)

/-- C10: the evaluator's `compliance_percentage` takes exactly the four
values 0, 33, 66, 100, determined solely by the number of missing required
tags (3, 2, 1, 0 missing respectively). -/
theorem compliance_percentage_four_values (res : AzureResource) (r : AuditResult)
    (h : audit_resource res = some r) :
    (r.missing_tags.length = 3 → r.compliance_percentage = 0) ∧
    (r.missing_tags.length = 2 → r.compliance_percentage = 33) ∧
    (r.missing_tags.length = 1 → r.compliance_percentage = 66) ∧
    (r.missing_tags.length = 0 → r.compliance_percentage = 100) ∧
    (r.compliance_percentage = 0 ∨ r.compliance_percentage = 33 ∨
      r.compliance_percentage = 66 ∨ r.compliance_percentage = 100) := by
  obtain ⟨-, -, -, hp, -⟩ := audit_resource_spec res r h
  have hle := missing_tags_length_le res r h
  rw [hp]
  set M := r.missing_tags.length with hM
  interval_cases M <;> simp

theorem compliance_percentage_four_values_witness :
    audit_resource vm3 = some vm3_result ∧
    (vm3_result.compliance_percentage = 0 ∨ vm3_result.compliance_percentage = 33 ∨
      vm3_result.compliance_percentage = 66 ∨ vm3_result.compliance_percentage = 100) :=
  ⟨by decide, (compliance_percentage_four_values vm3 vm3_result (by decide)).2.2.2.2⟩

end TagAudit
